import Mathlib

/-!
Verification development for the IPDR investigation backend.

The definitions below are a shallow embedding of the JavaScript source:

  - models/ipdr.model.js        : the IPDR record schema, the checkSuspicious
                                  classifier and the pre-save hook
  - models/suspicious.model.js  : the SuspiciousActivity schema and its
                                  riskScore default
  - controllers/ipdr.controller.js : the bulk upload pipeline and the
                                  suspicious-activity creation helpers
  - the analytics controller    : dashboard, trends, top communicators and
                                  network relationships

JavaScript Date values are modelled by a record carrying the epoch
milliseconds together with the calendar components the code reads
(getHours, and the UTC components the aggregation operators extract);
the claims never depend on the arithmetic relation between the two.
JavaScript numbers are modelled by Nat, Int or Rat as appropriate.
Mongo aggregation output order for groups is unspecified by the store;
we model groups in first-appearance order and sorting by a stable
insertion sort, a deterministic refinement of the store semantics.
-/

namespace IPDRCore

/-- Access technology enum of the schema, enum values 2G, 3G, 4G, 5G. -/
inductive AccessType
  | G2
  | G3
  | G4
  | G5
deriving DecidableEq, Repr

/-- Reason-code taxonomy from the SuspiciousActivity schema enum. -/
inductive ReasonCode
  | HIGH_NIGHT_ACTIVITY
  | UNUSUAL_DATA_VOLUME
  | MULTIPLE_DEVICES
  | LOCATION_ANOMALY
  | SHORT_DURATION_FREQUENT
  | FOREIGN_IP_COMMUNICATION
  | BURST_COMMUNICATION
  | PATTERN_DEVIATION
  | ENCRYPTION_DETECTED
deriving DecidableEq, Repr

/-- Severity enum of the SuspiciousActivity schema. -/
inductive Severity
  | LOW
  | MEDIUM
  | HIGH
  | CRITICAL
deriving DecidableEq, Repr

/-- Status enum of the SuspiciousActivity schema. -/
inductive ActivityStatus
  | NEW
  | FLAGGED
  | UNDER_INVESTIGATION
  | RESOLVED
  | FALSE_POSITIVE
deriving DecidableEq, Repr

/-- Status enum of the Investigation schema. -/
inductive InvestigationStatus
  | OPEN
  | ACTIVE
  | PENDING
  | CLOSED
  | SUSPENDED
deriving DecidableEq, Repr

/-- A JavaScript Date: epoch milliseconds plus the calendar components the
source reads from it. localHour is the value of getHours (timezone
dependent); the utc components are what the store's date operators
extract. The claims never relate the components to epochMs, so they are
carried as independent data. -/
structure JSDate where
  epochMs : Int
  localHour : Nat
  utcYear : Nat
  utcMonth : Nat
  utcDay : Nat
  utcHour : Nat
  utcWeek : Nat
deriving DecidableEq, Repr

/-- One IPDR record document (models/ipdr.model.js). Derived fields
(duration, totalVolume, locationCoordinates, suspicious,
suspiciousReasons) are stored on the document and recomputed by the
pre-save hook. -/
structure IPDR where
  _id : Nat
  privateIP : String
  privatePort : Nat
  publicIP : String
  publicPort : Nat
  destIP : String
  destPort : Nat
  phoneNumber : String
  imei : String
  imsi : String
  startTime : JSDate
  endTime : JSDate
  duration : Int
  originCellID : String
  originLat : ℚ
  originLong : ℚ
  locationCoordinates : List ℚ
  uplinkVolume : Nat
  downlinkVolume : Nat
  totalVolume : Nat
  accessType : AccessType
  suspicious : Bool
  suspiciousReasons : List ReasonCode
  createdAt : Int
deriving DecidableEq, Repr

/-- The reason list built by IPDRSchema.methods.checkSuspicious: night
activity when getHours is at least 22 or at most 6, unusual volume when
totalVolume exceeds 10485760 bytes, short duration when duration is
under 30000 ms. Each push is an independent condition. -/
def computeSuspiciousReasons (r : IPDR) : List ReasonCode :=
  let reasons : List ReasonCode := []
  let reasons := if 22 ≤ r.startTime.localHour ∨ r.startTime.localHour ≤ 6 then
    reasons ++ [ReasonCode.HIGH_NIGHT_ACTIVITY] else reasons
  let reasons := if 10485760 < r.totalVolume then
    reasons ++ [ReasonCode.UNUSUAL_DATA_VOLUME] else reasons
  let reasons := if r.duration < 30000 then
    reasons ++ [ReasonCode.SHORT_DURATION_FREQUENT] else reasons
  reasons

/-- IPDRSchema.methods.checkSuspicious: sets suspicious to whether the
reason list is non-empty and stores the reason list on the record. -/
def checkSuspicious (r : IPDR) : IPDR :=
  let reasons := computeSuspiciousReasons r
  { r with suspicious := decide (0 < reasons.length), suspiciousReasons := reasons }

/-- The pre-save middleware of IPDRSchema: recomputes totalVolume,
duration and location coordinates from their inputs, then runs
checkSuspicious, in that order. -/
def preSaveHook (r : IPDR) : IPDR :=
  checkSuspicious { r with
    totalVolume := r.uplinkVolume + r.downlinkVolume,
    duration := r.endTime.epochMs - r.startTime.epochMs,
    locationCoordinates := [r.originLong, r.originLat] }

/-- One dotted group of the IP regex: between one and three characters,
all decimal digits. -/
def splitOnDot : List Char → List (List Char)
  | [] => [[]]
  | c :: rest =>
    let groups := splitOnDot rest
    if c = '.' then [] :: groups
    else
      match groups with
      | [] => [[c]]
      | g :: gs => (c :: g) :: gs

/-- The schema IP validator regex: exactly four dot-separated groups of
one to three digits. -/
def isIPv4Format (s : String) : Bool :=
  let parts := splitOnDot s.data
  decide (parts.length = 4) &&
    parts.all (fun p => decide (1 ≤ p.length) && decide (p.length ≤ 3) && p.all Char.isDigit)

/-- A string of decimal digits whose length lies in the given bounds;
this is the phone, imei and imsi regex shape of the schema. -/
def matchesDigits (s : String) (lo hi : Nat) : Bool :=
  s.data.all Char.isDigit && decide (lo ≤ s.data.length) && decide (s.data.length ≤ hi)

/-- Port fields of the schema: min 1, max 65535. -/
def validPort (p : Nat) : Bool :=
  decide (1 ≤ p) && decide (p ≤ 65535)

/-- The document validation mongoose runs on save: the per-field
validators of IPDRSchema. Volume nonnegativity and the accessType and
reason enums hold by the types of the embedding. -/
def validateIPDR (r : IPDR) : Bool :=
  isIPv4Format r.privateIP && validPort r.privatePort &&
  isIPv4Format r.publicIP && validPort r.publicPort &&
  isIPv4Format r.destIP && validPort r.destPort &&
  matchesDigits r.phoneNumber 10 15 &&
  matchesDigits r.imei 15 15 &&
  matchesDigits r.imsi 15 15 &&
  decide (r.startTime.epochMs < r.endTime.epochMs) &&
  decide (-90 ≤ r.originLat ∧ r.originLat ≤ 90) &&
  decide (-180 ≤ r.originLong ∧ r.originLong ≤ 180)

/-- One SuspiciousActivity document (models/suspicious.model.js), the
fields the core writes or the claims read. -/
structure SuspiciousActivity where
  type : ReasonCode
  severity : Severity
  confidence : ℚ
  phoneNumber : String
  imei : String
  imsi : String
  description : String
  ipdrRecords : List Nat
  detectedAt : Int
  firstOccurrence : Int
  lastOccurrence : Int
  status : ActivityStatus
  riskScore : ℚ
deriving DecidableEq, Repr

/-- The severity weight table inside the riskScore schema default of
SuspiciousActivitySchema. -/
def severityWeight : Severity → ℚ
  | Severity.LOW => 25
  | Severity.MEDIUM => 50
  | Severity.HIGH => 75
  | Severity.CRITICAL => 100

/-- The riskScore schema default: severity weight times confidence,
applied when the caller does not supply a riskScore. -/
def riskScoreDefault (severity : Severity) (confidence : ℚ) : ℚ :=
  severityWeight severity * confidence

/-- Controller helper getSeverity: the severity override table, with
MEDIUM as the fallback for any reason code not in the table. -/
def getSeverity : ReasonCode → Severity
  | ReasonCode.HIGH_NIGHT_ACTIVITY => Severity.MEDIUM
  | ReasonCode.UNUSUAL_DATA_VOLUME => Severity.HIGH
  | ReasonCode.SHORT_DURATION_FREQUENT => Severity.HIGH
  | ReasonCode.MULTIPLE_DEVICES => Severity.CRITICAL
  | _ => Severity.MEDIUM

/-- Controller helper getSuspiciousDescription: the description template
table, with a generic fallback. -/
def getSuspiciousDescription (reason : ReasonCode) (record : IPDR) : String :=
  match reason with
  | ReasonCode.HIGH_NIGHT_ACTIVITY =>
    "High frequency communications during night hours (" ++
      toString record.startTime.localHour ++ ":00)"
  | ReasonCode.UNUSUAL_DATA_VOLUME =>
    "Unusual data volume: " ++ toString record.totalVolume ++ " bytes"
  | ReasonCode.SHORT_DURATION_FREQUENT =>
    "Short duration session: " ++ toString record.duration ++ "ms"
  | ReasonCode.MULTIPLE_DEVICES =>
    "Multiple device usage detected for " ++ record.phoneNumber
  | _ => "Suspicious pattern detected"

/-- Controller helper createSuspiciousActivity: one SuspiciousActivity
per entry of the record's reason list, constructed with confidence 0.8,
severity from getSeverity, and the schema defaults for status,
detectedAt and riskScore. now is the creation clock reading. -/
def createSuspiciousActivity (now : Int) (record : IPDR) : List SuspiciousActivity :=
  record.suspiciousReasons.map fun reason =>
    let sev := getSeverity reason
    let conf : ℚ := 0.8
    { type := reason
      severity := sev
      confidence := conf
      phoneNumber := record.phoneNumber
      imei := record.imei
      imsi := record.imsi
      description := getSuspiciousDescription reason record
      ipdrRecords := [record._id]
      detectedAt := now
      firstOccurrence := record.startTime.epochMs
      lastOccurrence := record.endTime.epochMs
      status := ActivityStatus.NEW
      riskScore := riskScoreDefault sev conf }

/-- Saving one document: mongoose validation, then the pre-save hook,
then the write. A validation failure rejects the save. -/
def trySave (r : IPDR) : Option IPDR :=
  if validateIPDR r then some (preSaveHook r) else none

/-- The mutable state the uploadRecords stream handlers share: the
processed and created counters, the failure list (row number as read
from the shared counter, and the raw row), the persisted records and
the emitted suspicious activities. -/
structure UploadState where
  processed : Nat
  created : Nat
  errors : List (Nat × IPDR)
  saved : List IPDR
  events : List SuspiciousActivity
deriving DecidableEq, Repr

/-- The summary object the uploadRecords response carries. -/
structure UploadSummary where
  processed : Nat
  created : Nat
  errors : List (Nat × IPDR)
deriving DecidableEq, Repr

/-- The settlement of one row's save promise. The data handler is async
and the stream never awaits it: by the time any save settles, every
handler has already run its synchronous prefix, so the shared processed
counter holds the full row count (counterValue). On fulfilment the
handler counts the row as created and, when the saved record is
suspicious, emits one activity per reason; on rejection its catch
pushes a failure entry whose row number is the counter it reads then,
counterValue, not the failing row's own position. -/
def settleRow (now : Int) (counterValue : Nat) (st : UploadState) (row : IPDR) :
    UploadState :=
  match trySave row with
  | some record =>
    let events := if record.suspicious then
      st.events ++ createSuspiciousActivity now record else st.events
    { processed := st.processed, created := st.created + 1, errors := st.errors,
      saved := st.saved ++ [record], events := events }
  | none =>
    { processed := st.processed, created := st.created,
      errors := st.errors ++ [(counterValue, row)], saved := st.saved,
      events := st.events }

/-- Controller uploadRecords, the response it sends. Each data handler
increments the shared processed counter synchronously while the stream
parses, the end event fires once parsing is done, and the response is
built there. Against an asynchronous store no save promise has settled
by then, so the summary reports the full processed count but zero
created rows and an empty failure list, whatever the rows contain. -/
def uploadRecords (rows : List IPDR) : UploadSummary :=
  { processed := rows.length, created := 0, errors := [] }

/-- The shared state after every row save promise has settled, in row
order; this happens only after the response above has been sent. Every
failure entry carries the final counter value, the full row count. -/
def uploadRecordsSettled (now : Int) (rows : List IPDR) : UploadState :=
  rows.foldl (settleRow now rows.length)
    { processed := rows.length, created := 0, errors := [], saved := [], events := [] }

/-- Distinct values of a list in first-appearance order; this models the
value sets the store produces for group keys, addToSet accumulators and
distinct queries. -/
def distinctValues {α : Type} [DecidableEq α] : List α → List α
  | [] => []
  | x :: xs => x :: (distinctValues xs).filter (fun y => decide (y ≠ x))

/-- Minimum accumulator of the store over a group, zero on an empty
group (the store produces no group for an empty match). -/
def listMin : List Int → Int
  | [] => 0
  | x :: xs => xs.foldl min x

/-- Maximum accumulator of the store over a group. -/
def listMax : List Int → Int
  | [] => 0
  | x :: xs => xs.foldl max x

/-- Relationship strength tier from getNetworkRelationships: HIGH above
frequency 10, MEDIUM above 5, LOW otherwise. -/
inductive StrengthTier
  | LOW
  | MEDIUM
  | HIGH
deriving DecidableEq, Repr

/-- The conditional expression assigning strength in
getNetworkRelationships. -/
def strengthTier (frequency : Nat) : StrengthTier :=
  if 10 < frequency then StrengthTier.HIGH
  else if 5 < frequency then StrengthTier.MEDIUM
  else StrengthTier.LOW

/-- One group of the connections aggregation in getNetworkRelationships:
grouped by destIP with count, summed duration and volume, first and last
startTime, and whether any record of the group is suspicious. -/
structure Connection where
  destIP : String
  frequency : Nat
  totalDuration : Int
  totalDataExchange : Nat
  firstContact : Int
  lastContact : Int
  suspicious : Bool
deriving DecidableEq, Repr

/-- One relationship edge returned by getNetworkRelationships. -/
structure RelationshipEdge where
  aParty : String
  destIP : String
  bParties : List String
  frequency : Nat
  totalDuration : Int
  dataExchanged : Nat
  firstContact : Int
  lastContact : Int
  strength : StrengthTier
  suspicious : Bool
deriving DecidableEq, Repr

/-- Sort relation of the connections pipeline: frequency descending
only. -/
def connLe (a b : Connection) : Prop :=
  b.frequency ≤ a.frequency

instance (a b : Connection) : Decidable (connLe a b) :=
  inferInstanceAs (Decidable (b.frequency ≤ a.frequency))

/-- The per-destination group document of the connections aggregation in
getNetworkRelationships. -/
def connectionOf (matched : List IPDR) (d : String) : Connection :=
  let group := matched.filter fun r => r.destIP == d
  { destIP := d
    frequency := group.length
    totalDuration := (group.map (fun r => r.duration)).sum
    totalDataExchange := (group.map (fun r => r.totalVolume)).sum
    firstContact := listMin (group.map (fun r => r.startTime.epochMs))
    lastContact := listMax (group.map (fun r => r.startTime.epochMs))
    suspicious := group.any (fun r => r.suspicious) }

/-- The connections aggregation of getNetworkRelationships: the records
of the subject grouped by destIP. -/
def relationshipConnections (store : List IPDR) (phoneNumber : String) : List Connection :=
  let matched := store.filter fun r => r.phoneNumber == phoneNumber
  (distinctValues (matched.map (fun r => r.destIP))).map (connectionOf matched)

/-- The relationship object getNetworkRelationships pushes for one
connection group: the group aggregates plus up to five other phone
numbers seen at the same destIP. -/
def relationshipEdge (store : List IPDR) (phoneNumber : String) (conn : Connection) :
    RelationshipEdge :=
  let relatedPhones := distinctValues
    ((store.filter fun r => r.destIP == conn.destIP && r.phoneNumber != phoneNumber).map
      (fun r => r.phoneNumber))
  { aParty := phoneNumber
    destIP := conn.destIP
    bParties := relatedPhones.take 5
    frequency := conn.frequency
    totalDuration := conn.totalDuration
    dataExchanged := conn.totalDataExchange
    firstContact := conn.firstContact
    lastContact := conn.lastContact
    strength := strengthTier conn.frequency
    suspicious := conn.suspicious }

/-- Controller getNetworkRelationships: group the records of the subject
phone number by destIP, sort the groups by frequency descending, cap to
the limit (the route default is 50), then build one edge per group. -/
def getNetworkRelationships (store : List IPDR) (phoneNumber : String) (limit : Nat) :
    List RelationshipEdge :=
  (((List.insertionSort connLe (relationshipConnections store phoneNumber)).take limit).map
    (relationshipEdge store phoneNumber))

/-- One per-subject aggregate of getTopCommunicators. -/
structure Communicator where
  phoneNumber : String
  totalSessions : Nat
  totalDataVolume : Nat
  suspiciousCount : Nat
  uniqueDestinations : Nat
  accessTypes : List AccessType
  firstSeen : Int
  lastSeen : Int
  riskScore : ℚ
deriving DecidableEq, Repr

/-- Sort relation of getTopCommunicators: riskScore descending, ties by
totalSessions descending. -/
def commLe (a b : Communicator) : Prop :=
  b.riskScore < a.riskScore ∨ (a.riskScore = b.riskScore ∧ b.totalSessions ≤ a.totalSessions)

instance (a b : Communicator) : Decidable (commLe a b) :=
  inferInstanceAs (Decidable (_ ∨ _))

/-- The per-subject group document of getTopCommunicators: session
count, volume, suspicious count, distinct destinations, first and last
seen, and the riskScore formula. -/
def communicatorOf (matched : List IPDR) (ph : String) : Communicator :=
  let group := matched.filter fun r => r.phoneNumber == ph
  let totalSessions := group.length
  let suspiciousCount := (group.filter (fun r => r.suspicious)).length
  { phoneNumber := ph
    totalSessions := totalSessions
    totalDataVolume := (group.map (fun r => r.totalVolume)).sum
    suspiciousCount := suspiciousCount
    uniqueDestinations := (distinctValues (group.map (fun r => r.destIP))).length
    accessTypes := distinctValues (group.map (fun r => r.accessType))
    firstSeen := listMin (group.map (fun r => r.startTime.epochMs))
    lastSeen := listMax (group.map (fun r => r.startTime.epochMs))
    riskScore := (suspiciousCount : ℚ) * 10 + (totalSessions : ℚ) / 100 }

/-- Controller getTopCommunicators: group records whose startTime lies
inside the trailing window by phone number, compute the per-subject
aggregates and riskScore, sort by riskScore then totalSessions, both
descending, and cap to the limit. -/
def getTopCommunicators (store : List IPDR) (startDate : Int) (limit : Nat) :
    List Communicator :=
  let matched := store.filter fun r => decide (startDate ≤ r.startTime.epochMs)
  let comms := (distinctValues (matched.map (fun r => r.phoneNumber))).map (communicatorOf matched)
  (List.insertionSort commLe comms).take limit

/-- Granularity selector of getActivityTrends; the switch default is the
monthly grouping. -/
inductive Period
  | hourly
  | daily
  | weekly
  | monthly
deriving DecidableEq, Repr

/-- The group key the trends pipeline extracts from startTime for each
granularity. -/
def trendKey (p : Period) (d : JSDate) : List Nat :=
  match p with
  | Period.hourly => [d.utcYear, d.utcMonth, d.utcDay, d.utcHour]
  | Period.daily => [d.utcYear, d.utcMonth, d.utcDay]
  | Period.weekly => [d.utcYear, d.utcWeek]
  | Period.monthly => [d.utcYear, d.utcMonth]

/-- One bucket of the trends result. -/
structure TrendBucket where
  key : List Nat
  count : Nat
  dataVolume : Nat
  suspiciousCount : Nat
deriving DecidableEq, Repr

/-- Ascending comparison of group keys, the chronological sort of the
trends pipeline. -/
def keyLe : List Nat → List Nat → Bool
  | [], _ => true
  | _ :: _, [] => false
  | a :: as, b :: bs => if a < b then true else if b < a then false else keyLe as bs

/-- Sort relation for trend buckets: key ascending. -/
def bucketLe (a b : TrendBucket) : Prop :=
  keyLe a.key b.key = true

instance (a b : TrendBucket) : Decidable (bucketLe a b) :=
  inferInstanceAs (Decidable (_ = true))

/-- Controller getActivityTrends: records whose startTime lies inside
the trailing window, grouped by the calendar key of the granularity,
each bucket carrying count, summed volume and suspicious count, sorted
by key ascending. -/
def getActivityTrends (store : List IPDR) (startDate : Int) (p : Period) :
    List TrendBucket :=
  let matched := store.filter fun r => decide (startDate ≤ r.startTime.epochMs)
  let keys := distinctValues (matched.map (fun r => trendKey p r.startTime))
  let buckets := keys.map fun k =>
    let group := matched.filter fun r => decide (trendKey p r.startTime = k)
    { key := k
      count := group.length
      dataVolume := (group.map (fun r => r.totalVolume)).sum
      suspiciousCount := (group.filter (fun r => r.suspicious)).length : TrendBucket }
  List.insertionSort bucketLe buckets

/-- Two-decimal rendering used by the dashboard volume formatter,
modelling Number.prototype.toFixed(2) on the nonnegative values it is
applied to. -/
def toFixed2 (q : ℚ) : String :=
  let cents : Int := round (q * 100)
  let whole := cents / 100
  let frac := (cents % 100).toNat
  toString whole ++ "." ++ (if frac < 10 then "0" ++ toString frac else toString frac)

/-- The formatDataVolume helper of getDashboardStats. -/
def formatDataVolume (bytes : Nat) : String :=
  if 1000000000 < bytes then toFixed2 ((bytes : ℚ) / 1000000000) ++ " GB"
  else if 1000000 < bytes then toFixed2 ((bytes : ℚ) / 1000000) ++ " MB"
  else if 1000 < bytes then toFixed2 ((bytes : ℚ) / 1000) ++ " KB"
  else toString bytes ++ " B"

/-- An Investigation document, reduced to the status field the dashboard
counts. -/
structure Investigation where
  status : InvestigationStatus
deriving DecidableEq, Repr

/-- One entry of the recent-activity preview of the dashboard. -/
structure RecentEntry where
  phoneNumber : String
  timestamp : Int
  accessType : AccessType
  suspicious : Bool
deriving DecidableEq, Repr

/-- The stats object getDashboardStats returns. -/
structure DashboardStats where
  totalRecords : Nat
  uniquePhoneNumbers : Nat
  uniqueIPs : Nat
  totalDataVolume : String
  suspiciousActivities : Nat
  activeInvestigations : Nat
  accessTypeBreakdown : List (AccessType × Nat)
  recentActivity : List RecentEntry
deriving DecidableEq, Repr

/-- Sort relation of the recent-activity preview: createdAt
descending. -/
def recentLe (a b : IPDR) : Prop :=
  b.createdAt ≤ a.createdAt

instance (a b : IPDR) : Decidable (recentLe a b) :=
  inferInstanceAs (Decidable (b.createdAt ≤ a.createdAt))

/-- Controller getDashboardStats: every record-derived figure is taken
over the records whose createdAt lies inside the trailing window
(startDate is the window start the controller computes from the current
time). Suspicious activities are counted by detectedAt inside the
window and status not RESOLVED; active investigations by status OPEN or
ACTIVE, unwindowed. -/
def getDashboardStats (records : List IPDR) (activities : List SuspiciousActivity)
    (investigations : List Investigation) (startDate : Int) : DashboardStats :=
  let matched := records.filter fun r => decide (startDate ≤ r.createdAt)
  let allIPs := distinctValues
    (matched.map (fun r => r.privateIP) ++ matched.map (fun r => r.publicIP) ++
      matched.map (fun r => r.destIP))
  let accessTypes := distinctValues (matched.map (fun r => r.accessType))
  { totalRecords := matched.length
    uniquePhoneNumbers := (distinctValues (matched.map (fun r => r.phoneNumber))).length
    uniqueIPs := allIPs.length
    totalDataVolume := formatDataVolume ((matched.map (fun r => r.totalVolume)).sum)
    suspiciousActivities := (activities.filter fun a =>
      decide (startDate ≤ a.detectedAt) && decide (a.status ≠ ActivityStatus.RESOLVED)).length
    activeInvestigations := (investigations.filter fun i =>
      decide (i.status = InvestigationStatus.OPEN) ||
        decide (i.status = InvestigationStatus.ACTIVE)).length
    accessTypeBreakdown := accessTypes.map fun t =>
      (t, (matched.filter fun r => decide (r.accessType = t)).length)
    recentActivity := ((List.insertionSort recentLe matched).take 10).map fun r =>
      { phoneNumber := r.phoneNumber
        timestamp := r.startTime.epochMs
        accessType := r.accessType
        suspicious := r.suspicious } }

/-! Concrete sample data used by witness theorems. -/

/-- A date with the given epoch milliseconds and local hour. -/
def demoDate (ms : Int) (hour : Nat) : JSDate :=
  { epochMs := ms, localHour := hour, utcYear := 2024, utcMonth := 1,
    utcDay := 1, utcHour := hour, utcWeek := 1 }

/-- A well-formed daytime record: one minute long, small volume. -/
def baseRecord : IPDR :=
  { _id := 1
    privateIP := "10.0.0.1"
    privatePort := 1234
    publicIP := "100.0.0.1"
    publicPort := 80
    destIP := "8.8.8.8"
    destPort := 443
    phoneNumber := "9876543210"
    imei := "123456789012345"
    imsi := "310150123456789"
    startTime := demoDate 0 10
    endTime := demoDate 60000 10
    duration := 0
    originCellID := "CELL1"
    originLat := 12
    originLong := 77
    locationCoordinates := []
    uplinkVolume := 1000
    downlinkVolume := 2000
    totalVolume := 0
    accessType := AccessType.G4
    suspicious := false
    suspiciousReasons := []
    createdAt := 0 }

/-- The base record moved to local hour 23. -/
def nightRecord : IPDR :=
  { baseRecord with startTime := demoDate 0 23 }

/-- CLAIM C1. For every saved record the classifier's reason set is
exactly the subset of the three single-record codes whose conditions
hold on the freshly derived fields, suspicious is true iff the set is
non-empty, and the volume and hour boundaries behave as stated. -/
theorem checkSuspicious_reason_set (r : IPDR) (hh : r.startTime.localHour < 24) :
    (ReasonCode.HIGH_NIGHT_ACTIVITY ∈ (preSaveHook r).suspiciousReasons ↔
      ((22 ≤ r.startTime.localHour ∧ r.startTime.localHour < 24) ∨
        r.startTime.localHour ≤ 6)) ∧
    (ReasonCode.UNUSUAL_DATA_VOLUME ∈ (preSaveHook r).suspiciousReasons ↔
      10485760 < r.uplinkVolume + r.downlinkVolume) ∧
    (ReasonCode.SHORT_DURATION_FREQUENT ∈ (preSaveHook r).suspiciousReasons ↔
      r.endTime.epochMs - r.startTime.epochMs < 30000) ∧
    (∀ c ∈ (preSaveHook r).suspiciousReasons,
      c = ReasonCode.HIGH_NIGHT_ACTIVITY ∨ c = ReasonCode.UNUSUAL_DATA_VOLUME ∨
        c = ReasonCode.SHORT_DURATION_FREQUENT) ∧
    ((preSaveHook r).suspicious = true ↔ (preSaveHook r).suspiciousReasons ≠ []) ∧
    (r.uplinkVolume + r.downlinkVolume = 10485761 →
      ReasonCode.UNUSUAL_DATA_VOLUME ∈ (preSaveHook r).suspiciousReasons) ∧
    (r.uplinkVolume + r.downlinkVolume = 10485760 →
      ReasonCode.UNUSUAL_DATA_VOLUME ∉ (preSaveHook r).suspiciousReasons) ∧
    (r.startTime.localHour = 23 →
      ReasonCode.HIGH_NIGHT_ACTIVITY ∈ (preSaveHook r).suspiciousReasons) ∧
    (r.startTime.localHour = 10 →
      ReasonCode.HIGH_NIGHT_ACTIVITY ∉ (preSaveHook r).suspiciousReasons) := by
  simp only [preSaveHook, checkSuspicious, computeSuspiciousReasons]
  split_ifs with h1 h2 h3 <;> simp_all <;> omega

/-- Witness for C1 at a record with local hour 23: the hour boundary
condition holds and the code is assigned. -/
theorem checkSuspicious_reason_set_witness :
    ReasonCode.HIGH_NIGHT_ACTIVITY ∈ (preSaveHook nightRecord).suspiciousReasons :=
  ((checkSuspicious_reason_set nightRecord (by decide)).1).mpr (by decide)

/-- CLAIM C3. After the pre-save hook the derived fields of the stored
record are consistent with its input fields, the classification fields
are exactly the classifier output on the freshly derived record, and a
record whose end time is after its start time has positive duration. -/
theorem preSaveHook_derived_consistent (r : IPDR) :
    ((preSaveHook r).totalVolume =
      (preSaveHook r).uplinkVolume + (preSaveHook r).downlinkVolume) ∧
    ((preSaveHook r).duration =
      (preSaveHook r).endTime.epochMs - (preSaveHook r).startTime.epochMs) ∧
    ((preSaveHook r).locationCoordinates =
      [(preSaveHook r).originLong, (preSaveHook r).originLat]) ∧
    ((preSaveHook r).suspiciousReasons = computeSuspiciousReasons (preSaveHook r)) ∧
    ((preSaveHook r).suspicious =
      decide (0 < (preSaveHook r).suspiciousReasons.length)) ∧
    (r.startTime.epochMs < r.endTime.epochMs → 0 < (preSaveHook r).duration) := by
  refine ⟨rfl, rfl, rfl, ?_, rfl, ?_⟩
  · simp only [preSaveHook, checkSuspicious, computeSuspiciousReasons]
  · intro h
    simp only [preSaveHook, checkSuspicious]
    omega

/-- Witness for C3 at the base record: its end time is after its start
time, so the stored duration is positive. -/
theorem preSaveHook_derived_consistent_witness :
    0 < (preSaveHook baseRecord).duration :=
  (preSaveHook_derived_consistent baseRecord).2.2.2.2.2 (by decide)

/-- The records the upload loop persists for a row list: the valid rows,
each saved through the pre-save hook. -/
def savedFrom (rows : List IPDR) : List IPDR :=
  (rows.filter validateIPDR).map preSaveHook

/-- The suspicious activities the upload loop emits for a row list. -/
def eventsFrom (now : Int) (rows : List IPDR) : List SuspiciousActivity :=
  ((savedFrom rows).filter (fun r => r.suspicious)).flatMap (createSuspiciousActivity now)

theorem eventsFrom_nil (now : Int) : eventsFrom now [] = [] := rfl

theorem savedFrom_cons_valid (r : IPDR) (rs : List IPDR) (h : validateIPDR r = true) :
    savedFrom (r :: rs) = preSaveHook r :: savedFrom rs := by
  simp [savedFrom, List.filter_cons, h]

theorem savedFrom_cons_invalid (r : IPDR) (rs : List IPDR) (h : validateIPDR r = false) :
    savedFrom (r :: rs) = savedFrom rs := by
  simp [savedFrom, List.filter_cons, h]

theorem eventsFrom_cons_valid (now : Int) (r : IPDR) (rs : List IPDR)
    (h : validateIPDR r = true) :
    eventsFrom now (r :: rs) =
      (if (preSaveHook r).suspicious then createSuspiciousActivity now (preSaveHook r)
        else []) ++ eventsFrom now rs := by
  by_cases hs : (preSaveHook r).suspicious <;>
    simp [eventsFrom, savedFrom_cons_valid r rs h, List.filter_cons, hs]

theorem eventsFrom_cons_invalid (now : Int) (r : IPDR) (rs : List IPDR)
    (h : validateIPDR r = false) :
    eventsFrom now (r :: rs) = eventsFrom now rs := by
  simp [eventsFrom, savedFrom_cons_invalid r rs h]

theorem settleRow_valid (now : Int) (n : Nat) (st : UploadState) (row : IPDR)
    (hv : validateIPDR row = true) :
    settleRow now n st row =
      { processed := st.processed
        created := st.created + 1
        errors := st.errors
        saved := st.saved ++ [preSaveHook row]
        events := st.events ++
          (if (preSaveHook row).suspicious then createSuspiciousActivity now (preSaveHook row)
            else []) } := by
  have h1 : trySave row = some (preSaveHook row) := by
    simp [trySave, hv]
  unfold settleRow
  rw [h1]
  by_cases hs : (preSaveHook row).suspicious = true <;> simp [hs]

theorem settleRow_invalid (now : Int) (n : Nat) (st : UploadState) (row : IPDR)
    (hv : validateIPDR row = false) :
    settleRow now n st row =
      { processed := st.processed
        created := st.created
        errors := st.errors ++ [(n, row)]
        saved := st.saved
        events := st.events } := by
  have h1 : trySave row = none := by
    simp [trySave, hv]
  unfold settleRow
  rw [h1]

/-- Closed form of the settlement fold from an arbitrary shared state. -/
theorem uploadSettled_foldl (now : Int) (n : Nat) (rows : List IPDR) (st : UploadState) :
    rows.foldl (settleRow now n) st =
      { processed := st.processed
        created := st.created + (rows.filter validateIPDR).length
        errors := st.errors ++
          (rows.filter (fun r => ! validateIPDR r)).map (fun r => (n, r))
        saved := st.saved ++ savedFrom rows
        events := st.events ++ eventsFrom now rows } := by
  induction rows generalizing st with
  | nil =>
    simp [savedFrom, eventsFrom]
  | cons r rs ih =>
    simp only [List.foldl_cons]
    by_cases hv : validateIPDR r = true
    · rw [settleRow_valid now n st r hv, ih]
      rw [savedFrom_cons_valid r rs hv, eventsFrom_cons_valid now r rs hv]
      dsimp only
      congr 1
      · simp only [List.filter_cons, hv, if_true, List.length_cons]
        omega
      · simp [List.filter_cons, hv]
      · simp
      · simp
    · have hv' : validateIPDR r = false := by simpa using hv
      rw [settleRow_invalid now n st r hv', ih]
      rw [savedFrom_cons_invalid r rs hv', eventsFrom_cons_invalid now r rs hv']
      dsimp only
      congr 1
      · simp [List.filter_cons, hv']
      · simp [List.filter_cons, hv']

/-- A second well-formed record, distinguishable from the base one. -/
def secondRecord : IPDR :=
  { baseRecord with _id := 2, phoneNumber := "9876543211", destIP := "9.9.9.9" }

/-- A malformed row: its end time is not after its start time, so the
schema validator rejects it. -/
def badRecord : IPDR :=
  { baseRecord with _id := 3, endTime := demoDate (-5) 10 }

/-- CLAIM C2, code bug evidence. On the three-row batch whose middle
row is malformed the claim asks for a summary with processedCount 3,
createdCount 2 and exactly one failure entry at row index 2. The
response the controller sends is built at the stream end event, before
any save settles: it reports three processed rows, zero created rows
and no failure entries. After settlement the store does hold both valid
rows, but the single failure entry carries row number 3, the final
value of the shared counter, not the malformed row's index 2. -/
theorem uploadRecords_summary_divergence :
    (uploadRecords ([baseRecord] ++ badRecord :: [secondRecord])).processed = 3 ∧
    (uploadRecords ([baseRecord] ++ badRecord :: [secondRecord])).created = 0 ∧
    (uploadRecords ([baseRecord] ++ badRecord :: [secondRecord])).errors = [] ∧
    (uploadRecordsSettled 0 ([baseRecord] ++ badRecord :: [secondRecord])).created = 2 ∧
    (uploadRecordsSettled 0 ([baseRecord] ++ badRecord :: [secondRecord])).errors =
      [(3, badRecord)] ∧
    (uploadRecordsSettled 0 ([baseRecord] ++ badRecord :: [secondRecord])).saved =
      [preSaveHook baseRecord, preSaveHook secondRecord] := by
  refine ⟨rfl, rfl, rfl, ?_, ?_, ?_⟩ <;> decide

/-- CLAIM C4. The pipeline's emitted events are exactly one per
triggered reason of each persisted suspicious record; each event
references the record, carries confidence 0.8, and carries the severity
of the override table, which maps the night rule to MEDIUM, the volume
and short-duration rules to HIGH, and every reason code without an
override entry to MEDIUM. -/
theorem createSuspiciousActivity_per_reason (now : Int) (rows : List IPDR) (record : IPDR) :
    ((uploadRecordsSettled now rows).events =
      ((uploadRecordsSettled now rows).saved.filter (fun r => r.suspicious)).flatMap
        (createSuspiciousActivity now)) ∧
    ((createSuspiciousActivity now record).map (fun a => a.type) =
      record.suspiciousReasons) ∧
    ((createSuspiciousActivity now record).map (fun a => a.ipdrRecords) =
      record.suspiciousReasons.map (fun _ => [record._id])) ∧
    ((createSuspiciousActivity now record).map (fun a => a.confidence) =
      record.suspiciousReasons.map (fun _ => (0.8 : ℚ))) ∧
    ((createSuspiciousActivity now record).map (fun a => a.severity) =
      record.suspiciousReasons.map getSeverity) ∧
    (getSeverity ReasonCode.HIGH_NIGHT_ACTIVITY = Severity.MEDIUM) ∧
    (getSeverity ReasonCode.UNUSUAL_DATA_VOLUME = Severity.HIGH) ∧
    (getSeverity ReasonCode.SHORT_DURATION_FREQUENT = Severity.HIGH) ∧
    (getSeverity ReasonCode.LOCATION_ANOMALY = Severity.MEDIUM) ∧
    (getSeverity ReasonCode.FOREIGN_IP_COMMUNICATION = Severity.MEDIUM) ∧
    (getSeverity ReasonCode.BURST_COMMUNICATION = Severity.MEDIUM) ∧
    (getSeverity ReasonCode.PATTERN_DEVIATION = Severity.MEDIUM) ∧
    (getSeverity ReasonCode.ENCRYPTION_DETECTED = Severity.MEDIUM) := by
  refine ⟨?_, ?_, ?_, ?_, ?_, rfl, rfl, rfl, rfl, rfl, rfl, rfl, rfl⟩
  · rw [uploadRecordsSettled, uploadSettled_foldl]
    dsimp only
    simp [eventsFrom]
  · simp [createSuspiciousActivity, Function.comp_def]
  · simp [createSuspiciousActivity, Function.comp_def]
  · simp [createSuspiciousActivity, Function.comp_def]
  · simp [createSuspiciousActivity, Function.comp_def]

/-- CLAIM C5. Every activity the core creates without an explicit
riskScore carries the schema default, severity weight times confidence,
with the weight table LOW 25, MEDIUM 50, HIGH 75, CRITICAL 100; the
default is the pure function riskScoreDefault of severity and
confidence alone. -/
theorem riskScoreDefault_formula (s : Severity) (c : ℚ) (now : Int) (record : IPDR) :
    (riskScoreDefault s c = severityWeight s * c) ∧
    (severityWeight Severity.LOW = 25) ∧
    (severityWeight Severity.MEDIUM = 50) ∧
    (severityWeight Severity.HIGH = 75) ∧
    (severityWeight Severity.CRITICAL = 100) ∧
    ((createSuspiciousActivity now record).map (fun a => a.riskScore) =
      (createSuspiciousActivity now record).map
        (fun a => severityWeight a.severity * a.confidence)) := by
  refine ⟨rfl, rfl, rfl, rfl, rfl, ?_⟩
  simp [createSuspiciousActivity, riskScoreDefault, Function.comp_def]

theorem mem_distinctValues {α : Type} [DecidableEq α] (l : List α) (a : α) :
    a ∈ distinctValues l ↔ a ∈ l := by
  induction l with
  | nil => simp [distinctValues]
  | cons x xs ih =>
    by_cases hax : a = x
    · simp [distinctValues, hax]
    · simp [distinctValues, hax, List.mem_filter, ih]

theorem distinctValues_nodup {α : Type} [DecidableEq α] (l : List α) :
    (distinctValues l).Nodup := by
  induction l with
  | nil => simp [distinctValues]
  | cons x xs ih =>
    rw [distinctValues, List.nodup_cons]
    refine ⟨?_, ih.filter _⟩
    intro hx
    simp [List.mem_filter] at hx

instance : IsTotal Connection connLe :=
  ⟨fun a b => le_total b.frequency a.frequency⟩

instance : IsTrans Connection connLe :=
  ⟨fun _ _ _ hab hbc => le_trans hbc hab⟩

/-- CLAIM C7. The strength tier boundaries: HIGH iff frequency above 10,
MEDIUM iff frequency in (5, 10], LOW otherwise, with the stated
behaviour at exactly 10 and exactly 5; every returned edge carries the
tier of its own frequency. -/
theorem strengthTier_boundaries (f : Nat) (store : List IPDR) (phone : String) (lim : Nat) :
    (strengthTier f = StrengthTier.HIGH ↔ 10 < f) ∧
    (strengthTier f = StrengthTier.MEDIUM ↔ 5 < f ∧ f ≤ 10) ∧
    (strengthTier f = StrengthTier.LOW ↔ f ≤ 5) ∧
    (strengthTier 10 = StrengthTier.MEDIUM) ∧
    (strengthTier 5 = StrengthTier.LOW) ∧
    ((getNetworkRelationships store phone lim).map (fun e => e.strength) =
      (getNetworkRelationships store phone lim).map (fun e => strengthTier e.frequency)) := by
  refine ⟨?_, ?_, ?_, by decide, by decide, ?_⟩
  · unfold strengthTier
    split_ifs <;> simp_all
  · unfold strengthTier
    split_ifs <;> simp_all
  · unfold strengthTier
    split_ifs <;> simp_all
    omega
  · simp [getNetworkRelationships, relationshipEdge, List.map_map, Function.comp_def]

/-- CLAIM C6, counterexample. Two records of the same subject to two
destinations, both with frequency one, the later contact listed second:
the produced edge list has equal frequencies but lastContact ascending,
so ties are not broken by lastContact descending. -/
theorem getNetworkRelationships_tiebreak_counterexample :
    ((getNetworkRelationships
        [{ baseRecord with destIP := "10.0.0.1", startTime := demoDate 100 10 },
          { baseRecord with _id := 2, destIP := "10.0.0.2", startTime := demoDate 200 10 }]
        "9876543210" 50).map (fun e => (e.destIP, e.frequency, e.lastContact)) =
      [("10.0.0.1", 1, 100), ("10.0.0.2", 1, 200)]) ∧
    ¬ List.Pairwise
        (fun a b => b.frequency < a.frequency ∨
          (a.frequency = b.frequency ∧ b.lastContact ≤ a.lastContact))
        (getNetworkRelationships
          [{ baseRecord with destIP := "10.0.0.1", startTime := demoDate 100 10 },
            { baseRecord with _id := 2, destIP := "10.0.0.2", startTime := demoDate 200 10 }]
          "9876543210" 50) := by
  constructor
  · decide
  · decide

/-- CLAIM C6, amended. One edge per distinct counterpart destination
address observed in the subject's records, sorted by frequency
descending and capped to the result limit; the order of edges with equal
frequency is the grouping order, not a lastContact tiebreak. -/
theorem getNetworkRelationships_sorted_by_frequency (store : List IPDR) (phone : String)
    (lim : Nat) :
    ((getNetworkRelationships store phone lim).length ≤ lim) ∧
    ((getNetworkRelationships store phone lim).Pairwise
      (fun a b => b.frequency ≤ a.frequency)) ∧
    (((getNetworkRelationships store phone lim).map (fun e => e.destIP)).Nodup) ∧
    (∀ d ∈ (getNetworkRelationships store phone lim).map (fun e => e.destIP),
      d ∈ (store.filter (fun r => r.phoneNumber == phone)).map (fun r => r.destIP)) ∧
    ((distinctValues ((store.filter (fun r => r.phoneNumber == phone)).map
        (fun r => r.destIP))).length ≤ lim →
      ∀ d ∈ (store.filter (fun r => r.phoneNumber == phone)).map (fun r => r.destIP),
        d ∈ (getNetworkRelationships store phone lim).map (fun e => e.destIP)) := by
  have hperm := List.perm_insertionSort connLe (relationshipConnections store phone)
  have hkeys : (relationshipConnections store phone).map (fun c => c.destIP) =
      distinctValues ((store.filter (fun r => r.phoneNumber == phone)).map
        (fun r => r.destIP)) := by
    simp [relationshipConnections, connectionOf, List.map_map, Function.comp_def]
  have hedges : (getNetworkRelationships store phone lim).map (fun e => e.destIP) =
      (((List.insertionSort connLe (relationshipConnections store phone)).take lim).map
        (fun c => c.destIP)) := by
    simp [getNetworkRelationships, relationshipEdge, List.map_map, Function.comp_def]
  refine ⟨?_, ?_, ?_, ?_, ?_⟩
  · calc (getNetworkRelationships store phone lim).length
        = ((List.insertionSort connLe (relationshipConnections store phone)).take lim).length := by
          simp [getNetworkRelationships]
      _ ≤ lim := by simp
  · have hs := List.sorted_insertionSort connLe (relationshipConnections store phone)
    have hp : ((List.insertionSort connLe (relationshipConnections store phone)).take
        lim).Pairwise connLe :=
      List.Pairwise.sublist (List.take_sublist _ _) hs
    unfold getNetworkRelationships
    exact hp.map _ (fun a b hab => hab)
  · have h1 : ((List.insertionSort connLe (relationshipConnections store phone)).map
        (fun c => c.destIP)).Nodup := by
      rw [(hperm.map (fun c => c.destIP)).nodup_iff, hkeys]
      exact distinctValues_nodup _
    rw [hedges]
    exact h1.sublist ((List.take_sublist lim _).map _)
  · intro d hd
    rw [hedges] at hd
    have hd2 : d ∈ (List.insertionSort connLe (relationshipConnections store phone)).map
        (fun c => c.destIP) :=
      ((List.take_sublist lim _).map _).mem hd
    have hd3 : d ∈ (relationshipConnections store phone).map (fun c => c.destIP) :=
      (hperm.map (fun c => c.destIP)).mem_iff.mp hd2
    rw [hkeys] at hd3
    exact (mem_distinctValues _ _).mp hd3
  · intro hlen d hd
    have hd1 : d ∈ distinctValues ((store.filter (fun r => r.phoneNumber == phone)).map
        (fun r => r.destIP)) := (mem_distinctValues _ _).mpr hd
    rw [← hkeys] at hd1
    have hd2 : d ∈ (List.insertionSort connLe (relationshipConnections store phone)).map
        (fun c => c.destIP) :=
      (hperm.map (fun c => c.destIP)).mem_iff.mpr hd1
    have hlen2 : (List.insertionSort connLe (relationshipConnections store phone)).length ≤
        lim := by
      rw [hperm.length_eq]
      have : (relationshipConnections store phone).length =
          (distinctValues ((store.filter (fun r => r.phoneNumber == phone)).map
            (fun r => r.destIP))).length := by
        rw [← hkeys, List.length_map]
      omega
    rw [hedges, List.take_of_length_le hlen2]
    exact hd2

/-- Witness for C6 at a one-record store: the single destination is
below the cap, so it appears among the returned edges. -/
theorem getNetworkRelationships_sorted_by_frequency_witness :
    "8.8.8.8" ∈ (getNetworkRelationships [baseRecord] "9876543210" 50).map
      (fun e => e.destIP) :=
  (getNetworkRelationships_sorted_by_frequency [baseRecord] "9876543210" 50).2.2.2.2
    (by decide) "8.8.8.8" (by decide)

instance : IsTotal Communicator commLe :=
  ⟨by
    intro a b
    rcases lt_trichotomy a.riskScore b.riskScore with h | h | h
    · exact Or.inr (Or.inl h)
    · rcases le_total b.totalSessions a.totalSessions with hs | hs
      · exact Or.inl (Or.inr ⟨h, hs⟩)
      · exact Or.inr (Or.inr ⟨h.symm, hs⟩)
    · exact Or.inl (Or.inl h)⟩

instance : IsTrans Communicator commLe :=
  ⟨by
    intro a b c hab hbc
    rcases hab with h1 | ⟨h1, h2⟩
    · rcases hbc with h3 | ⟨h3, h4⟩
      · exact Or.inl (lt_trans h3 h1)
      · exact Or.inl (by rw [← h3]; exact h1)
    · rcases hbc with h3 | ⟨h3, h4⟩
      · exact Or.inl (by rw [h1]; exact h3)
      · exact Or.inr ⟨h1.trans h3, le_trans h4 h2⟩⟩

/-- A stored record for the top-communicators example. -/
def commRecord (ph : String) (ms : Int) (susp : Bool) : IPDR :=
  { baseRecord with phoneNumber := ph, startTime := demoDate ms 10, suspicious := susp }

/-- Subject A with five sessions and none suspicious, subject B with
three sessions and one suspicious. -/
def demoCommStore : List IPDR :=
  [commRecord "5555555555" 100 false, commRecord "5555555555" 200 false,
    commRecord "5555555555" 300 false, commRecord "5555555555" 400 false,
    commRecord "5555555555" 500 false,
    commRecord "3333333333" 600 false, commRecord "3333333333" 700 false,
    commRecord "3333333333" 800 true]

/-- CLAIM C8. Each returned subject carries riskScore equal to
suspiciousCount times 10 plus totalSessions over 100, the result is
sorted by riskScore descending with ties broken by session count
descending and capped to the limit; on the concrete A and B store the
suspicious subject ranks first with 10.03 against 0.05. -/
theorem getTopCommunicators_ranking (store : List IPDR) (t : Int) (lim : Nat) :
    ((getTopCommunicators store t lim).map (fun c => c.riskScore) =
      (getTopCommunicators store t lim).map
        (fun c => (c.suspiciousCount : ℚ) * 10 + (c.totalSessions : ℚ) / 100)) ∧
    ((getTopCommunicators store t lim).length ≤ lim) ∧
    ((getTopCommunicators store t lim).Pairwise
      (fun a b => b.riskScore < a.riskScore ∨
        (a.riskScore = b.riskScore ∧ b.totalSessions ≤ a.totalSessions))) ∧
    ((getTopCommunicators demoCommStore 0 10).map (fun c => c.phoneNumber) =
      ["3333333333", "5555555555"]) ∧
    ((getTopCommunicators demoCommStore 0 10).map (fun c => c.riskScore) =
      [10.03, 0.05]) := by
  refine ⟨?_, ?_, ?_, ?_, ?_⟩
  · apply List.map_congr_left
    intro c hc
    unfold getTopCommunicators at hc
    have hc2 : c ∈ List.insertionSort commLe
        ((distinctValues ((store.filter fun r =>
          decide (t ≤ r.startTime.epochMs)).map (fun r => r.phoneNumber))).map
          (communicatorOf (store.filter fun r => decide (t ≤ r.startTime.epochMs)))) :=
      (List.take_sublist _ _).mem hc
    have hc3 := (List.perm_insertionSort commLe _).mem_iff.mp hc2
    obtain ⟨ph, _, rfl⟩ := List.mem_map.mp hc3
    rfl
  · unfold getTopCommunicators
    simp
  · have hs := List.sorted_insertionSort commLe
      ((distinctValues ((store.filter fun r =>
        decide (t ≤ r.startTime.epochMs)).map (fun r => r.phoneNumber))).map
        (communicatorOf (store.filter fun r => decide (t ≤ r.startTime.epochMs))))
    have hp := List.Pairwise.sublist (List.take_sublist lim _) hs
    exact hp.imp (fun hab => hab)
  · simp only [getTopCommunicators, demoCommStore, commRecord, baseRecord, demoDate]
    simp [distinctValues, communicatorOf]
    norm_num [List.insertionSort, List.orderedInsert, commLe]
  · simp only [getTopCommunicators, demoCommStore, commRecord, baseRecord, demoDate]
    simp [distinctValues, communicatorOf]
    norm_num [List.insertionSort, List.orderedInsert, commLe]

/-- CLAIM C9. When no record matches the dashboard window and no
activity matches, the dashboard returns the well-formed zero-valued
stats object: zero counts, the zero-formatted volume string, and empty
breakdowns, rather than an error. -/
theorem getDashboardStats_empty_store (records : List IPDR)
    (activities : List SuspiciousActivity) (invs : List Investigation) (startDate : Int)
    (hr : ∀ r ∈ records, r.createdAt < startDate)
    (ha : ∀ a ∈ activities, a.detectedAt < startDate) :
    (getDashboardStats records activities invs startDate).totalRecords = 0 ∧
    (getDashboardStats records activities invs startDate).uniquePhoneNumbers = 0 ∧
    (getDashboardStats records activities invs startDate).uniqueIPs = 0 ∧
    (getDashboardStats records activities invs startDate).totalDataVolume = "0 B" ∧
    (getDashboardStats records activities invs startDate).suspiciousActivities = 0 ∧
    (getDashboardStats records activities invs startDate).accessTypeBreakdown = [] ∧
    (getDashboardStats records activities invs startDate).recentActivity = [] := by
  have hm : records.filter (fun r => decide (startDate ≤ r.createdAt)) = [] := by
    rw [List.filter_eq_nil_iff]
    intro r hrr
    simpa using not_le.mpr (hr r hrr)
  have hact : activities.filter (fun a =>
      decide (startDate ≤ a.detectedAt) && decide (a.status ≠ ActivityStatus.RESOLVED)) = [] := by
    rw [List.filter_eq_nil_iff]
    intro a haa
    simp [not_le.mpr (ha a haa)]
  refine ⟨?_, ?_, ?_, ?_, ?_, ?_, ?_⟩
  · simp [getDashboardStats, hm]
  · simp [getDashboardStats, hm, distinctValues]
  · simp [getDashboardStats, hm, distinctValues]
  · have hv : (getDashboardStats records activities invs startDate).totalDataVolume =
        formatDataVolume (((records.filter (fun r =>
          decide (startDate ≤ r.createdAt))).map (fun r => r.totalVolume)).sum) := rfl
    rw [hv, hm]
    decide
  · have hs : (getDashboardStats records activities invs startDate).suspiciousActivities =
        (activities.filter (fun a => decide (startDate ≤ a.detectedAt) &&
          decide (a.status ≠ ActivityStatus.RESOLVED))).length := rfl
    rw [hs, hact]
    rfl
  · simp [getDashboardStats, hm, distinctValues]
  · simp [getDashboardStats, hm, List.insertionSort]

/-- An activity detected before the window, used by the C9 witness. -/
def staleActivity : SuspiciousActivity :=
  { type := ReasonCode.HIGH_NIGHT_ACTIVITY
    severity := Severity.MEDIUM
    confidence := 1
    phoneNumber := "9876543210"
    imei := "123456789012345"
    imsi := "310150123456789"
    description := "old"
    ipdrRecords := [1]
    detectedAt := -100
    firstOccurrence := -200
    lastOccurrence := -150
    status := ActivityStatus.NEW
    riskScore := 50 }

/-- A record ingested before the window, used by the C9 witness. -/
def staleRecord : IPDR :=
  { baseRecord with createdAt := -100 }

/-- An open investigation, used by the C9 witness. -/
def openInvestigation : Investigation :=
  { status := InvestigationStatus.OPEN }

/-- Witness for C9: a store whose single record and single activity both
predate the window yields the zero dashboard. -/
theorem getDashboardStats_empty_store_witness :
    (getDashboardStats [staleRecord] [staleActivity]
      [openInvestigation] 0).totalRecords = 0 ∧
    (getDashboardStats [staleRecord] [staleActivity]
      [openInvestigation] 0).totalDataVolume = "0 B" :=
  ⟨(getDashboardStats_empty_store [staleRecord] [staleActivity]
      [openInvestigation] 0 (by decide) (by decide)).1,
    (getDashboardStats_empty_store [staleRecord] [staleActivity]
      [openInvestigation] 0 (by decide) (by decide)).2.2.2.1⟩

/-- CLAIM C10. The dashboard windows on createdAt while trends and top
communicators window on startTime: a record ingested inside the window
whose session started before it is counted by the dashboard but invisible
to trends and communicators, and conversely. -/
theorem window_field_mismatch (r1 r2 : IPDR) (startDate : Int) (p : Period) (lim : Nat)
    (h1 : startDate ≤ r1.createdAt) (h2 : r1.startTime.epochMs < startDate)
    (h3 : r2.createdAt < startDate) (h4 : startDate ≤ r2.startTime.epochMs)
    (h5 : 1 ≤ lim) :
    (getDashboardStats [r1] [] [] startDate).totalRecords = 1 ∧
    (getActivityTrends [r1] startDate p = []) ∧
    (getTopCommunicators [r1] startDate lim = []) ∧
    (getDashboardStats [r2] [] [] startDate).totalRecords = 0 ∧
    ((getActivityTrends [r2] startDate p).map (fun b => b.count) = [1]) ∧
    ((getTopCommunicators [r2] startDate lim).map (fun c => c.phoneNumber) =
      [r2.phoneNumber]) := by
  refine ⟨?_, ?_, ?_, ?_, ?_, ?_⟩
  · simp [getDashboardStats, h1]
  · simp [getActivityTrends, not_le.mpr h2, distinctValues, List.insertionSort]
  · simp [getTopCommunicators, not_le.mpr h2, distinctValues, List.insertionSort]
  · simp [getDashboardStats, not_le.mpr h3]
  · simp [getActivityTrends, h4, distinctValues, List.insertionSort, List.orderedInsert]
  · have htake : ∀ c : Communicator, List.take lim [c] = [c] := by
      intro c
      apply List.take_of_length_le
      simpa using h5
    simp [getTopCommunicators, h4, distinctValues, htake, communicatorOf]

/-- A record created inside the window whose session started before it. -/
def lateIngestRecord : IPDR :=
  { baseRecord with createdAt := 10, startTime := demoDate (-50) 10 }

/-- A record created before the window whose session started inside it. -/
def earlyIngestRecord : IPDR :=
  { baseRecord with createdAt := -50, startTime := demoDate 10 10 }

/-- Witness for C10: a record created at 10 whose session started at -50
against window start 0, and a record created at -50 whose session
started at 10. -/
theorem window_field_mismatch_witness :
    (getDashboardStats [lateIngestRecord] [] [] 0).totalRecords = 1 :=
  (window_field_mismatch lateIngestRecord earlyIngestRecord
    0 Period.daily 10 (by decide) (by decide) (by decide) (by decide) (by decide)).1

end IPDRCore
